import Mathlib

/-!
# Verification of the inictus allocator core

A shallow embedding of the inictus heap allocator (`src/lib.rs`): the
size-class table, the buddy allocator, the span model with the global and
reuse caches, the small-free / reclamation protocol, and the `GlobalAlloc`
adapter dispatch.  Machine integers are modelled as `Nat`; the wrap-around
of the 64-bit global active-span counter is made explicit where it matters.
Concurrent code is modelled as sequential state transformers at the
granularity of the atomic operations of the source.
-/

namespace Inictus

/-! ## Constants (`src/lib.rs`, lines 17-68) -/

def ARENA_SIZE : Nat := 1 <<< 30

def SPAN_SIZE_BITS : Nat := 16

def SPAN_SIZE : Nat := 1 <<< SPAN_SIZE_BITS

/-- `size_of::<SpanHeader>()`; the source statically asserts it is 128. -/
def SPAN_HEADER_SIZE : Nat := 128

/-- Owner ID for orphaned spans (no owning thread). -/
def SPAN_OWNER_ORPHAN : Nat := 0

/-- Magic number identifying valid span headers. -/
def SPAN_MAGIC : Nat := 0x494E494354555321

def SPANS_PER_ARENA : Nat := ARENA_SIZE / SPAN_SIZE

/-- `SPANS_PER_ARENA.trailing_zeros()`: 2^14 spans, so 14. -/
def BUDDY_MAX_ORDER : Nat := 14

def CLASSES_LINEAR : Nat := 8

def CLASSES_LINEAR_STEP : Nat := 16

def CLASSES_PER_DOUBLING : Nat := 4

def CLASSES_MAX_SIZE : Nat := (SPAN_SIZE - SPAN_HEADER_SIZE) / 2

def SHARD_COUNT : Nat := 8

def THREAD_LOCAL_CACHE_SIZE : Nat := 2

def REUSE_CACHE_LIMIT : Nat := 4

def MAX_GLOBAL_ACTIVE_SPANS : Nat := 4096

/-! ## Size classes (`src/lib.rs`, lines 1449-1522) -/

/-- `align_up(x, align)` = `(x + mask) & !mask` with `mask = align - 1`,
for a power-of-two `align` (64-bit, no overflow in any use below). -/
def align_up (x align : Nat) : Nat :=
  (x + (align - 1)) - ((x + (align - 1)) % align)

/-- `GEO_MULTIPLIERS = [16, 19, 23, 27]`, indexed by the sub-class. -/
def GEO_MULTIPLIERS : Nat → Nat
  | 0 => 16
  | 1 => 19
  | 2 => 23
  | _ => 27

/-- `class_to_size` (`src/lib.rs`, lines 1466-1483). -/
def class_to_size (cls : Nat) : Nat :=
  if cls < CLASSES_LINEAR then
    (cls + 1) * CLASSES_LINEAR_STEP
  else
    let geo_index := cls - CLASSES_LINEAR + 1
    let order := geo_index / CLASSES_PER_DOUBLING
    let sub := geo_index % CLASSES_PER_DOUBLING
    let base := 128 <<< order
    let size := align_up ((base * GEO_MULTIPLIERS sub) / 16) 16
    if size > CLASSES_MAX_SIZE then CLASSES_MAX_SIZE else size

/-- The loop body of `count_size_classes` (`src/lib.rs`, lines 42-53);
the source loop runs at most 65 times thanks to its `class > 64` guard,
so fuel 66 makes the fuelled version exact. -/
def count_size_classes_loop : Nat → Nat → Nat
  | _, 0 => 0
  | cls, fuel + 1 =>
    if class_to_size cls ≥ CLASSES_MAX_SIZE then cls + 1
    else
      let cls := cls + 1
      if cls > 64 then cls else count_size_classes_loop cls fuel

/-- `CLASSES_COUNT = count_size_classes()`. -/
def CLASSES_COUNT : Nat := count_size_classes_loop 0 66

/-- Fuelled floor-log2 loop: one fuel unit per halving; fuel 64 covers `usize`. -/
def floor_log2_loop : Nat → Nat → Nat
  | 0, _ => 0
  | fuel + 1, n => if n ≥ 2 then floor_log2_loop fuel (n / 2) + 1 else 0

/-- `(usize::BITS - 1) - n.leading_zeros()` for a nonzero 64-bit `n`:
the floor of the base-2 logarithm. -/
def floor_log2 (n : Nat) : Nat := floor_log2_loop 64 n

/-- `size_to_class` (`src/lib.rs`, lines 1487-1522). -/
def size_to_class (size : Nat) : Nat :=
  if size = 0 then 0
  else if size > CLASSES_MAX_SIZE then CLASSES_COUNT - 1
  else if size ≤ 128 then (size - 1) / CLASSES_LINEAR_STEP
  else
    let log2 := floor_log2 size
    let order := log2 - 7
    let base := 128 <<< order
    let t0 := base
    let t1 := align_up ((base * 19) >>> 4) 16
    let t2 := align_up ((base * 23) >>> 4) 16
    let t3 := align_up ((base * 27) >>> 4) 16
    let exceeded := (if size > t0 then 1 else 0) + (if size > t1 then 1 else 0)
      + (if size > t2 then 1 else 0) + (if size > t3 then 1 else 0)
    let order_bump := exceeded >>> 2
    let sub := exceeded &&& 3
    let final_order := order + order_bump
    let geo_index := final_order * CLASSES_PER_DOUBLING + sub
    CLASSES_LINEAR + geo_index - 1

/-! ## Size-class table: arithmetic lemmas -/

theorem align_up_16_ge (x : Nat) : x ≤ align_up x 16 := by
  unfold align_up; omega

theorem align_up_16_le (x : Nat) : align_up x 16 ≤ x + 15 := by
  unfold align_up; omega

theorem align_up_16_mono {x y : Nat} (h : x ≤ y) : align_up x 16 ≤ align_up y 16 := by
  unfold align_up
  have h1 : 16 ∣ (x + 15 - (x + 15) % 16) := by omega
  have h2 : 16 ∣ (y + 15 - (y + 15) % 16) := by omega
  omega

theorem align_up_16_of_dvd {x : Nat} (h : x % 16 = 0) : align_up x 16 = x := by
  unfold align_up; omega

/-- Correctness of the fuelled floor-log2 loop on inputs below `2 ^ fuel`. -/
theorem floor_log2_loop_correct :
    ∀ fuel n, 0 < n → n < 2 ^ fuel →
      2 ^ floor_log2_loop fuel n ≤ n ∧ n < 2 ^ (floor_log2_loop fuel n + 1) := by
  intro fuel
  induction fuel with
  | zero => intro n h1 h2; omega
  | succ k ih =>
    intro n h1 h2
    rw [floor_log2_loop]
    by_cases hn : n ≥ 2
    · rw [if_pos hn]
      have hpos : 0 < n / 2 := by omega
      have hlt : n / 2 < 2 ^ k := by
        rw [pow_succ] at h2; omega
      obtain ⟨ha, hb⟩ := ih (n / 2) hpos hlt
      constructor
      · rw [pow_succ]; omega
      · rw [pow_succ]; omega
    · rw [if_neg hn]
      simp only [pow_zero, pow_one]
      omega

theorem floor_log2_correct {n : Nat} (h1 : 0 < n) (h2 : n < 2 ^ 64) :
    2 ^ floor_log2 n ≤ n ∧ n < 2 ^ (floor_log2 n + 1) :=
  floor_log2_loop_correct 64 n h1 h2

/-- `class_to_size` on a geometric class written as `CLASSES_LINEAR + (4*o + s) - 1`. -/
theorem class_to_size_geo (o s : Nat) (hs : s < 4) (hos : 1 ≤ 4 * o + s) :
    class_to_size (CLASSES_LINEAR + (4 * o + s) - 1) =
      if align_up ((128 <<< o) * GEO_MULTIPLIERS s / 16) 16 > CLASSES_MAX_SIZE
      then CLASSES_MAX_SIZE
      else align_up ((128 <<< o) * GEO_MULTIPLIERS s / 16) 16 := by
  have hcls : ¬(CLASSES_LINEAR + (4 * o + s) - 1 < CLASSES_LINEAR) := by
    simp only [CLASSES_LINEAR]; omega
  simp only [class_to_size, if_neg hcls]
  have h1 : CLASSES_LINEAR + (4 * o + s) - 1 - CLASSES_LINEAR + 1 = 4 * o + s := by
    simp only [CLASSES_LINEAR]; omega
  rw [h1]
  have h2 : (4 * o + s) / CLASSES_PER_DOUBLING = o := by
    simp only [CLASSES_PER_DOUBLING]; omega
  have h3 : (4 * o + s) % CLASSES_PER_DOUBLING = s := by
    simp only [CLASSES_PER_DOUBLING]; omega
  rw [h2, h3]

theorem shift_128_eq_pow (k : Nat) : 128 <<< k = 2 ^ (k + 7) := by
  rw [Nat.shiftLeft_eq]
  have h : (128 : Nat) = 2 ^ 7 := by norm_num
  rw [h, ← pow_add]
  ring_nf

/-- First half of C1 on the geometric range. -/
theorem c1_geo {n : Nat} (h1 : 128 < n) (h2 : n ≤ CLASSES_MAX_SIZE) :
    n ≤ class_to_size (size_to_class n) := by
  have hmax : CLASSES_MAX_SIZE = 32704 := by decide
  obtain ⟨hlow, hhigh⟩ :=
    floor_log2_correct (n := n) (by omega) (by rw [hmax] at h2; norm_num; omega)
  have hn0 : ¬(n = 0) := by omega
  have hngt : ¬(n > CLASSES_MAX_SIZE) := by omega
  have hn128 : ¬(n ≤ 128) := by omega
  rw [size_to_class, if_neg hn0, if_neg hngt, if_neg hn128]
  generalize hLdef : floor_log2 n = L at hlow hhigh ⊢
  have hL7 : 7 ≤ L := by
    by_contra hc
    push_neg at hc
    have hb : 2 ^ (L + 1) ≤ 2 ^ 7 := Nat.pow_le_pow_right (by norm_num) (by omega)
    norm_num at hb
    omega
  have hL14 : L ≤ 14 := by
    by_contra hc
    push_neg at hc
    have hb : 2 ^ 15 ≤ 2 ^ L := Nat.pow_le_pow_right (by norm_num) (by omega)
    norm_num at hb
    rw [hmax] at h2
    omega
  have hpowL : 2 ^ L ≤ 16384 := by
    calc 2 ^ L ≤ 2 ^ 14 := Nat.pow_le_pow_right (by norm_num) hL14
    _ = 16384 := by norm_num
  have hdvd : ∀ k, 4 ≤ k → 2 ^ k % 16 = 0 := by
    intro k hk
    obtain ⟨c, hc⟩ := pow_dvd_pow 2 hk
    have h16 : (2 : Nat) ^ 4 = 16 := by norm_num
    rw [h16] at hc
    omega
  have hL77 : L - 7 + 7 = L := by omega
  have pow24 : (2 : Nat) ^ 4 = 16 := by norm_num
  -- threshold ordering
  have ht01 : 2 ^ L ≤ align_up (2 ^ L * 19 / 16) 16 := by
    refine le_trans ?_ (align_up_16_ge _)
    rw [Nat.le_div_iff_mul_le (by norm_num)]
    exact Nat.mul_le_mul_left _ (by norm_num)
  have ht12 : align_up (2 ^ L * 19 / 16) 16 ≤ align_up (2 ^ L * 23 / 16) 16 :=
    align_up_16_mono (Nat.div_le_div_right (Nat.mul_le_mul_left _ (by norm_num)))
  have ht23 : align_up (2 ^ L * 23 / 16) 16 ≤ align_up (2 ^ L * 27 / 16) 16 :=
    align_up_16_mono (Nat.div_le_div_right (Nat.mul_le_mul_left _ (by norm_num)))
  have ht3le : align_up (2 ^ L * 27 / 16) 16 ≤ 27663 := by
    refine le_trans (align_up_16_le _) ?_
    have hd : 2 ^ L * 27 / 16 ≤ 16384 * 27 / 16 :=
      Nat.div_le_div_right (Nat.mul_le_mul_right _ hpowL)
    omega
  simp only [Nat.shiftRight_eq_div_pow, shift_128_eq_pow, hL77, pow24]
  -- five-way case analysis on where `n` sits among the thresholds
  rcases Nat.lt_or_ge (2 ^ L) n with hc0 | hc0
  · rcases Nat.lt_or_ge (align_up (2 ^ L * 19 / 16) 16) n with hc1 | hc1
    · rcases Nat.lt_or_ge (align_up (2 ^ L * 23 / 16) 16) n with hc2 | hc2
      · rcases Nat.lt_or_ge (align_up (2 ^ L * 27 / 16) 16) n with hc3 | hc3
        · -- t3 < n : exceeded = 4, bump to the next order
          rw [if_pos (hc0 : n > 2 ^ L), if_pos (hc1 : n > _), if_pos (hc2 : n > _),
            if_pos (hc3 : n > _)]
          rw [show (L - 7 + (1 + 1 + 1 + 1) / 2 ^ 2) * CLASSES_PER_DOUBLING
                + (1 + 1 + 1 + 1 &&& 3) = 4 * (L - 6) + 0 from by
              rw [show ((1 + 1 + 1 + 1 : Nat) / 2 ^ 2) = 1 by decide,
                show ((1 + 1 + 1 + 1 : Nat) &&& 3) = 0 by decide]
              simp only [CLASSES_PER_DOUBLING]
              omega]
          rw [class_to_size_geo (L - 6) 0 (by norm_num) (by omega)]
          rw [show GEO_MULTIPLIERS 0 = 16 from rfl, shift_128_eq_pow,
            show L - 6 + 7 = L + 1 by omega,
            show 2 ^ (L + 1) * 16 / 16 = 2 ^ (L + 1) by omega,
            align_up_16_of_dvd (hdvd (L + 1) (by omega))]
          by_cases hclamp : 2 ^ (L + 1) > CLASSES_MAX_SIZE
          · rw [if_pos hclamp]; omega
          · rw [if_neg hclamp]; omega
        · -- t2 < n ≤ t3 : exceeded = 3
          rw [if_pos (hc0 : n > 2 ^ L), if_pos (hc1 : n > _), if_pos (hc2 : n > _),
            if_neg (by omega : ¬(n > align_up (2 ^ L * 27 / 16) 16))]
          rw [show (L - 7 + (1 + 1 + 1 + 0) / 2 ^ 2) * CLASSES_PER_DOUBLING
                + (1 + 1 + 1 + 0 &&& 3) = 4 * (L - 7) + 3 from by
              rw [show ((1 + 1 + 1 + 0 : Nat) / 2 ^ 2) = 0 by decide,
                show ((1 + 1 + 1 + 0 : Nat) &&& 3) = 3 by decide]
              simp only [CLASSES_PER_DOUBLING]
              omega]
          rw [class_to_size_geo (L - 7) 3 (by norm_num) (by omega)]
          rw [show GEO_MULTIPLIERS 3 = 27 from rfl, shift_128_eq_pow, hL77]
          rw [if_neg (by omega : ¬(align_up (2 ^ L * 27 / 16) 16 > CLASSES_MAX_SIZE))]
          omega
      · -- t1 < n ≤ t2 : exceeded = 2
        rw [if_pos (hc0 : n > 2 ^ L), if_pos (hc1 : n > _),
          if_neg (by omega : ¬(n > align_up (2 ^ L * 23 / 16) 16)),
          if_neg (by omega : ¬(n > align_up (2 ^ L * 27 / 16) 16))]
        rw [show (L - 7 + (1 + 1 + 0 + 0) / 2 ^ 2) * CLASSES_PER_DOUBLING
              + (1 + 1 + 0 + 0 &&& 3) = 4 * (L - 7) + 2 from by
            rw [show ((1 + 1 + 0 + 0 : Nat) / 2 ^ 2) = 0 by decide,
              show ((1 + 1 + 0 + 0 : Nat) &&& 3) = 2 by decide]
            simp only [CLASSES_PER_DOUBLING]
            omega]
        rw [class_to_size_geo (L - 7) 2 (by norm_num) (by omega)]
        rw [show GEO_MULTIPLIERS 2 = 23 from rfl, shift_128_eq_pow, hL77]
        rw [if_neg (by omega : ¬(align_up (2 ^ L * 23 / 16) 16 > CLASSES_MAX_SIZE))]
        omega
    · -- t0 < n ≤ t1 : exceeded = 1
      rw [if_pos (hc0 : n > 2 ^ L),
        if_neg (by omega : ¬(n > align_up (2 ^ L * 19 / 16) 16)),
        if_neg (by omega : ¬(n > align_up (2 ^ L * 23 / 16) 16)),
        if_neg (by omega : ¬(n > align_up (2 ^ L * 27 / 16) 16))]
      rw [show (L - 7 + (1 + 0 + 0 + 0) / 2 ^ 2) * CLASSES_PER_DOUBLING
            + (1 + 0 + 0 + 0 &&& 3) = 4 * (L - 7) + 1 from by
          rw [show ((1 + 0 + 0 + 0 : Nat) / 2 ^ 2) = 0 by decide,
            show ((1 + 0 + 0 + 0 : Nat) &&& 3) = 1 by decide]
          simp only [CLASSES_PER_DOUBLING]
          omega]
      rw [class_to_size_geo (L - 7) 1 (by norm_num) (by omega)]
      rw [show GEO_MULTIPLIERS 1 = 19 from rfl, shift_128_eq_pow, hL77]
      rw [if_neg (by omega : ¬(align_up (2 ^ L * 19 / 16) 16 > CLASSES_MAX_SIZE))]
      omega
  · -- n ≤ t0 : exceeded = 0 (forces L ≥ 8, since n > 128)
    have hL8 : 8 ≤ L := by
      by_contra hc
      push_neg at hc
      have hb : 2 ^ L ≤ 2 ^ 7 := Nat.pow_le_pow_right (by norm_num) (by omega)
      norm_num at hb
      omega
    rw [if_neg (by omega : ¬(n > 2 ^ L)),
      if_neg (by omega : ¬(n > align_up (2 ^ L * 19 / 16) 16)),
      if_neg (by omega : ¬(n > align_up (2 ^ L * 23 / 16) 16)),
      if_neg (by omega : ¬(n > align_up (2 ^ L * 27 / 16) 16))]
    rw [show (L - 7 + (0 + 0 + 0 + 0) / 2 ^ 2) * CLASSES_PER_DOUBLING
          + (0 + 0 + 0 + 0 &&& 3) = 4 * (L - 7) + 0 from by
        rw [show ((0 + 0 + 0 + 0 : Nat) / 2 ^ 2) = 0 by decide,
          show ((0 + 0 + 0 + 0 : Nat) &&& 3) = 0 by decide]
        simp only [CLASSES_PER_DOUBLING]
        omega]
    rw [class_to_size_geo (L - 7) 0 (by norm_num) (by omega)]
    rw [show GEO_MULTIPLIERS 0 = 16 from rfl, shift_128_eq_pow, hL77,
      show 2 ^ L * 16 / 16 = 2 ^ L by omega,
      align_up_16_of_dvd (hdvd L (by omega))]
    rw [if_neg (by omega : ¬(2 ^ L > CLASSES_MAX_SIZE))]
    omega


/-! ## Allocator adapter dispatch (`Allocator::alloc`, `src/lib.rs` lines 1234-1257) -/

inductive AllocPath
  | small (cls : Nat)
  | large
  | huge
deriving DecidableEq

/-- The size/alignment dispatch of `Allocator::alloc`.  `small_ok` stands for
whether the small-path attempt (`with_heap`/`alloc_small`) returned a block:
when it fails the source falls through to the large/huge paths. -/
def alloc_dispatch (size align : Nat) (small_ok : Bool) : AllocPath :=
  let size := max size 1
  if align > 16 then AllocPath.huge
  else if size ≤ CLASSES_MAX_SIZE ∧ small_ok = true then AllocPath.small (size_to_class size)
  else if size ≤ ARENA_SIZE / 2 then AllocPath.large
  else AllocPath.huge

/-! ## Claims C1 and C7 -/

/-- C1: the size-class table functions are mutual inverses in the spec's
sense: `class_to_size (size_to_class n) ≥ n` for every `0 < n ≤
CLASSES_MAX_SIZE = 32704`, and `size_to_class (class_to_size c) = c` for every
class index `c < CLASSES_COUNT`. -/
theorem size_class_table_mutual_inverses :
    (∀ n, 0 < n → n ≤ CLASSES_MAX_SIZE → class_to_size (size_to_class n) ≥ n) ∧
    (∀ c, c < CLASSES_COUNT → size_to_class (class_to_size c) = c) := by
  constructor
  · intro n hpos hle
    by_cases h128 : n ≤ 128
    · have hcls : size_to_class n = (n - 1) / CLASSES_LINEAR_STEP := by
        rw [size_to_class, if_neg (by omega : ¬(n = 0)),
          if_neg (by omega : ¬(n > CLASSES_MAX_SIZE)), if_pos h128]
      rw [hcls, class_to_size,
        if_pos (by simp only [CLASSES_LINEAR, CLASSES_LINEAR_STEP]; omega)]
      simp only [CLASSES_LINEAR_STEP]
      omega
    · exact c1_geo (by omega) hle
  · decide

theorem size_class_table_mutual_inverses_witness :
    (0 < 40 ∧ 40 ≤ CLASSES_MAX_SIZE ∧ class_to_size (size_to_class 40) ≥ 40) ∧
    (39 < CLASSES_COUNT ∧ size_to_class (class_to_size 39) = 39) :=
  ⟨⟨by norm_num, by decide,
    size_class_table_mutual_inverses.1 40 (by norm_num) (by decide)⟩,
   ⟨by decide, size_class_table_mutual_inverses.2 39 (by decide)⟩⟩

/-- C7: scenario S1 size-class boundaries and path dispatch: requests of 1
and 16 bytes get 16-byte blocks, 17 gets 32, 128 gets 128, 192 falls in a
geometric class with block size ≥ 192, 32704 maps to the top (last) small
class, and a 32705-byte request bypasses the small path and is dispatched to
the large (multi-span buddy) path. -/
theorem s1_size_class_boundaries :
    class_to_size (size_to_class 1) = 16 ∧
    class_to_size (size_to_class 16) = 16 ∧
    class_to_size (size_to_class 17) = 32 ∧
    class_to_size (size_to_class 128) = 128 ∧
    (CLASSES_LINEAR ≤ size_to_class 192 ∧ 192 ≤ class_to_size (size_to_class 192)) ∧
    size_to_class 32704 = CLASSES_COUNT - 1 ∧
    (∀ small_ok : Bool, alloc_dispatch 32705 16 small_ok = AllocPath.large) ∧
    alloc_dispatch 32704 16 true = AllocPath.small (CLASSES_COUNT - 1) := by
  refine ⟨by decide, by decide, by decide, by decide, ⟨by decide, by decide⟩,
    by decide, ?_, by decide⟩
  intro small_ok
  cases small_ok <;> decide


/-! ## Span and cache state model

Sequential model of the span header (`SpanHeader`, `src/lib.rs` lines
104-146) and of the per-shard caches.  Pointers are `Nat` addresses; a span
is identified by its base address.  Null pointers are `none`/`[]`; the
intrusive `cache_next` links are represented by the stacks themselves; the
16-bit ABA tags packed into the stack heads only disambiguate CAS retries
and have no sequential effect, so the packed heads are plain lists.  Each
atomic read/write of the source is a read/update of the current state. -/

inductive RSpanKind
  | Small
  | Large
  | Huge
deriving DecidableEq

/-- `SpanHeader`.  `cls` is the source's `class` field (a Lean keyword). -/
structure SpanState where
  bump : Nat := 0
  bump_end : Nat := 0
  hot_block : Option Nat := none
  local_free : List Nat := []
  remote_free : List Nat := []
  block_size : Nat := 0
  cls : Nat := 0
  kind : RSpanKind := RSpanKind.Small
  order : Nat := 0
  used : Nat := 0
  owner : Nat := 0
  in_reuse : Bool := false
  magic : Nat := 0
deriving DecidableEq

/-- Pointwise update of a one-index table. -/
def upd1 {α : Type} (f : Nat → α) (i : Nat) (v : α) : Nat → α :=
  fun a => if a = i then v else f a

/-- Pointwise update of a (shard × class) table. -/
def upd2 {α : Type} (f : Nat → Nat → α) (i j : Nat) (v : α) : Nat → Nat → α :=
  fun a b => if a = i ∧ b = j then v else f a b

/-- Allocator state: span headers plus the global cache, the reuse cache
(with its per-cell counters) and the global active-span counter. -/
structure MState where
  spans : Nat → SpanState
  reuse_heads : Nat → Nat → List Nat
  reuse_counts : Nat → Nat → Nat
  global_heads : Nat → Nat → List Nat
  active : Nat

def MState.setSpan (st : MState) (b : Nat) (s : SpanState) : MState :=
  { st with spans := upd1 st.spans b s }

/-- `GlobalCache::push` (`src/lib.rs` lines 529-547). -/
def global_cache_push (st : MState) (shard cls span : Nat) : MState :=
  { st with
      global_heads := upd2 st.global_heads (shard % SHARD_COUNT) cls
        (span :: st.global_heads (shard % SHARD_COUNT) cls) }

/-- `Arena::global_push` (line 707). -/
def global_push (st : MState) (cpu cls span : Nat) : MState :=
  global_cache_push st (cpu % SHARD_COUNT) cls span

/-- `ReuseCache::push` (`src/lib.rs` lines 590-616): rejected when the
per-(shard × class) counter has reached `REUSE_CACHE_LIMIT`. -/
def reuse_cache_push (st : MState) (shard cls span : Nat) : MState × Bool :=
  let si := shard % SHARD_COUNT
  if st.reuse_counts si cls ≥ REUSE_CACHE_LIMIT then (st, false)
  else
    ({ st with
        reuse_heads := upd2 st.reuse_heads si cls (span :: st.reuse_heads si cls),
        reuse_counts := upd2 st.reuse_counts si cls (st.reuse_counts si cls + 1) },
      true)

/-- `Arena::reuse_push` (`src/lib.rs` lines 723-742). -/
def reuse_push (st : MState) (cpu cls span : Nat) : MState :=
  if st.active > MAX_GLOBAL_ACTIVE_SPANS then st
  else
    let s := st.spans span
    let st1 := st.setSpan span { s with in_reuse := true }
    if s.in_reuse then st1
    else if (st1.spans span).owner ≠ SPAN_OWNER_ORPHAN then
      st1.setSpan span { st1.spans span with in_reuse := false }
    else
      match reuse_cache_push st1 (cpu % SHARD_COUNT) cls span with
      | (st2, true) => st2
      | (st2, false) => st2.setSpan span { st2.spans span with in_reuse := false }

/-- `free_small` (`src/lib.rs` lines 1074-1140).  `cpu` stands for the value
of `cpu_id()` (no migration during the call). -/
def free_small (st : MState) (tid cpu ptr span : Nat) : MState :=
  let s := st.spans span
  let st1 :=
    if s.owner = tid then
      match s.hot_block with
      | none => st.setSpan span { s with hot_block := some ptr }
      | some old_hot =>
          st.setSpan span
            { s with hot_block := some ptr, local_free := old_hot :: s.local_free }
    else
      let str := st.setSpan span { s with remote_free := ptr :: s.remote_free }
      if (str.spans span).owner = SPAN_OWNER_ORPHAN then
        (if (str.spans span).cls < CLASSES_COUNT then
          reuse_push str cpu (str.spans span).cls span
        else str)
      else str
  let s1 := st1.spans span
  let prev := s1.used
  let st2 := st1.setSpan span { s1 with used := prev - 1 }
  if prev = 1 then
    let s2 := st2.spans span
    if s2.owner = SPAN_OWNER_ORPHAN then
      if s2.in_reuse then st2
      else
        let st3 := st2.setSpan span { s2 with in_reuse := true }
        if (st3.spans span).owner ≠ SPAN_OWNER_ORPHAN then
          st3.setSpan span { st3.spans span with in_reuse := false }
        else
          match reuse_cache_push st3 (cpu % SHARD_COUNT) (st3.spans span).cls span with
          | (st4, true) => st4
          | (st4, false) => global_push st4 cpu (st3.spans span).cls span
    else st2
  else st2

/-- `ThreadHeap::cache_push` (lines 243-252); the per-class array used as a
stack is modelled as a list with push/pop at the head. -/
def cache_push_list (cache : List Nat) (span : Nat) : List Nat × Bool :=
  if cache.length < THREAD_LOCAL_CACHE_SIZE then (span :: cache, true)
  else (cache, false)

/-- `Arena::retire_small_span` (`src/lib.rs` lines 830-876).  `cache` is the
thread heap's mini-cache for the span's class; returns the updated state and
cache. -/
def retire_small_span (st : MState) (cache : List Nat) (cpu span : Nat) :
    MState × List Nat :=
  let s := st.spans span
  let cls := s.cls
  let list :=
    match s.hot_block with
    | some h => h :: s.local_free
    | none => s.local_free
  let st1 := st.setSpan span { s with hot_block := none, local_free := [] }
  let st2 :=
    if list ≠ [] then
      st1.setSpan span
        { st1.spans span with remote_free := list ++ (st1.spans span).remote_free }
    else st1
  let st3 := st2.setSpan span { st2.spans span with owner := SPAN_OWNER_ORPHAN }
  if (st3.spans span).used = 0 then
    let st4 := st3.setSpan span
      { st3.spans span with in_reuse := false, remote_free := [] }
    if st4.active ≤ MAX_GLOBAL_ACTIVE_SPANS then
      match cache_push_list cache span with
      | (cache2, true) => (st4, cache2)
      | (_, false) => (global_push st4 cpu cls span, cache)
    else (global_push st4 cpu cls span, cache)
  else
    if (st3.spans span).remote_free ≠ [] then (reuse_push st3 cpu cls span, cache)
    else (st3, cache)

/-- The flush `ThreadHeap::drop` performs for each span of the local
mini-cache (`src/lib.rs` lines 268-284): orphan the owner, clear `in_reuse`
and `remote_free`, then push to the global cache. -/
def drop_flush_span (st : MState) (cpu cls span : Nat) : MState :=
  let s := st.spans span
  let st1 := st.setSpan span
    { s with owner := SPAN_OWNER_ORPHAN, in_reuse := false, remote_free := [] }
  global_push st1 cpu cls span

/-! ### Basic state lemmas -/

@[simp] theorem upd1_same {α : Type} (f : Nat → α) (i : Nat) (v : α) :
    upd1 f i v i = v := by simp [upd1]

@[simp] theorem upd2_same {α : Type} (f : Nat → Nat → α) (i j : Nat) (v : α) :
    upd2 f i j v i j = v := by simp [upd2]

@[simp] theorem setSpan_spans_same (st : MState) (b : Nat) (s : SpanState) :
    (st.setSpan b s).spans b = s := by simp [MState.setSpan]

@[simp] theorem setSpan_reuse_heads (st : MState) (b : Nat) (s : SpanState) :
    (st.setSpan b s).reuse_heads = st.reuse_heads := rfl

@[simp] theorem setSpan_reuse_counts (st : MState) (b : Nat) (s : SpanState) :
    (st.setSpan b s).reuse_counts = st.reuse_counts := rfl

@[simp] theorem setSpan_global_heads (st : MState) (b : Nat) (s : SpanState) :
    (st.setSpan b s).global_heads = st.global_heads := rfl

@[simp] theorem setSpan_active (st : MState) (b : Nat) (s : SpanState) :
    (st.setSpan b s).active = st.active := rfl

theorem setSpan_setSpan (st : MState) (b : Nat) (s t : SpanState) :
    (st.setSpan b s).setSpan b t = st.setSpan b t := by
  simp only [MState.setSpan]
  congr 1
  funext a
  by_cases ha : a = b <;> simp [upd1, ha]

theorem setSpan_self (st : MState) (b : Nat) : st.setSpan b (st.spans b) = st := by
  cases st with
  | mk sp rh rc gh ac =>
    simp only [MState.setSpan, MState.mk.injEq, and_true]
    funext a
    by_cases ha : a = b <;> simp [upd1, ha]

theorem span_with_in_reuse_self {s : SpanState} (h : s.in_reuse = false) :
    { s with in_reuse := false } = s := by
  cases s
  simp_all

theorem span_with_in_reuse_true_self {s : SpanState} (h : s.in_reuse = true) :
    { s with in_reuse := true } = s := by
  cases s
  simp_all

theorem mod_shard_idem (cpu : Nat) : cpu % SHARD_COUNT % SHARD_COUNT = cpu % SHARD_COUNT := by
  simp only [SHARD_COUNT]
  omega


/-! ### `reuse_push` case lemmas -/

theorem reuse_push_of_active_gt {st : MState} (cpu cls span : Nat)
    (h : st.active > MAX_GLOBAL_ACTIVE_SPANS) :
    reuse_push st cpu cls span = st := by
  rw [reuse_push, if_pos h]

theorem reuse_push_of_in_reuse {st : MState} (cpu cls span : Nat)
    (hact : ¬st.active > MAX_GLOBAL_ACTIVE_SPANS)
    (h : (st.spans span).in_reuse = true) :
    reuse_push st cpu cls span = st := by
  rw [reuse_push, if_neg hact]
  simp only [h, if_true, span_with_in_reuse_true_self h, setSpan_self]

theorem reuse_push_of_claimed {st : MState} (cpu cls span : Nat)
    (hact : ¬st.active > MAX_GLOBAL_ACTIVE_SPANS)
    (h : (st.spans span).in_reuse = false)
    (howner : (st.spans span).owner ≠ SPAN_OWNER_ORPHAN) :
    reuse_push st cpu cls span = st := by
  rw [reuse_push, if_neg hact]
  simp only [h, Bool.false_eq_true, if_false, setSpan_spans_same]
  rw [if_pos (by simpa using howner)]
  rw [setSpan_setSpan]
  have hcollapse : { { st.spans span with in_reuse := true } with in_reuse := false }
      = st.spans span := by
    cases hsp : st.spans span
    rw [hsp] at h
    simp_all
  rw [hcollapse, setSpan_self]

theorem reuse_push_of_success {st : MState} (cpu cls span : Nat)
    (hact : ¬st.active > MAX_GLOBAL_ACTIVE_SPANS)
    (h : (st.spans span).in_reuse = false)
    (howner : (st.spans span).owner = SPAN_OWNER_ORPHAN)
    (hcount : st.reuse_counts (cpu % SHARD_COUNT) cls < REUSE_CACHE_LIMIT) :
    reuse_push st cpu cls span =
      { st with
          spans := upd1 st.spans span { st.spans span with in_reuse := true },
          reuse_heads := upd2 st.reuse_heads (cpu % SHARD_COUNT) cls
            (span :: st.reuse_heads (cpu % SHARD_COUNT) cls),
          reuse_counts := upd2 st.reuse_counts (cpu % SHARD_COUNT) cls
            (st.reuse_counts (cpu % SHARD_COUNT) cls + 1) } := by
  rw [reuse_push, if_neg hact]
  simp only [h, Bool.false_eq_true, if_false, setSpan_spans_same]
  rw [if_neg (by simpa using howner)]
  rw [reuse_cache_push]
  simp only [setSpan_reuse_counts, mod_shard_idem]
  rw [if_neg (by omega)]
  simp only [setSpan_reuse_heads]
  rfl

theorem reuse_push_of_cap_reject {st : MState} (cpu cls span : Nat)
    (hact : ¬st.active > MAX_GLOBAL_ACTIVE_SPANS)
    (h : (st.spans span).in_reuse = false)
    (howner : (st.spans span).owner = SPAN_OWNER_ORPHAN)
    (hcount : ¬st.reuse_counts (cpu % SHARD_COUNT) cls < REUSE_CACHE_LIMIT) :
    reuse_push st cpu cls span = st := by
  rw [reuse_push, if_neg hact]
  simp only [h, Bool.false_eq_true, if_false, setSpan_spans_same]
  rw [if_neg (by simpa using howner)]
  rw [reuse_cache_push]
  simp only [setSpan_reuse_counts, mod_shard_idem]
  rw [if_pos (by omega)]
  simp only [setSpan_spans_same]
  rw [setSpan_setSpan]
  have hcollapse : { { st.spans span with in_reuse := true } with in_reuse := false }
      = st.spans span := by
    cases hsp : st.spans span
    rw [hsp] at h
    simp_all
  rw [hcollapse, setSpan_self]

/-! ## Claim C4 -/

/-- C4: `reuse_push` follows the four-step protocol on every call: if the
global active-span counter exceeds `MAX_GLOBAL_ACTIVE_SPANS` the span is
dropped with no state change; otherwise the `in_reuse` false→true swap
returns early if the flag was already set; then the owner is reloaded and a
non-orphan owner clears the flag and aborts; finally the stack push is
attempted, clearing the flag again on rejection by the count cap.  A span is
enqueued only with `in_reuse = true` and an orphan owner. -/
theorem reuse_push_protocol (st : MState) (cpu cls span : Nat) :
    (st.active > MAX_GLOBAL_ACTIVE_SPANS → reuse_push st cpu cls span = st) ∧
    (st.active ≤ MAX_GLOBAL_ACTIVE_SPANS → (st.spans span).in_reuse = true →
      reuse_push st cpu cls span = st) ∧
    (st.active ≤ MAX_GLOBAL_ACTIVE_SPANS → (st.spans span).in_reuse = false →
      (st.spans span).owner ≠ SPAN_OWNER_ORPHAN →
      reuse_push st cpu cls span = st) ∧
    (st.active ≤ MAX_GLOBAL_ACTIVE_SPANS → (st.spans span).in_reuse = false →
      (st.spans span).owner = SPAN_OWNER_ORPHAN →
      st.reuse_counts (cpu % SHARD_COUNT) cls < REUSE_CACHE_LIMIT →
      (reuse_push st cpu cls span).reuse_heads (cpu % SHARD_COUNT) cls =
        span :: st.reuse_heads (cpu % SHARD_COUNT) cls ∧
      ((reuse_push st cpu cls span).spans span).in_reuse = true ∧
      ((reuse_push st cpu cls span).spans span).owner = SPAN_OWNER_ORPHAN ∧
      (reuse_push st cpu cls span).global_heads = st.global_heads) ∧
    (st.active ≤ MAX_GLOBAL_ACTIVE_SPANS → (st.spans span).in_reuse = false →
      (st.spans span).owner = SPAN_OWNER_ORPHAN →
      REUSE_CACHE_LIMIT ≤ st.reuse_counts (cpu % SHARD_COUNT) cls →
      reuse_push st cpu cls span = st) := by
  refine ⟨fun h => reuse_push_of_active_gt cpu cls span h,
    fun hact h => reuse_push_of_in_reuse cpu cls span (by omega) h,
    fun hact h howner => reuse_push_of_claimed cpu cls span (by omega) h howner,
    fun hact h howner hcount => ?_,
    fun hact h howner hcount =>
      reuse_push_of_cap_reject cpu cls span (by omega) h howner (by omega)⟩
  rw [reuse_push_of_success cpu cls span (by omega) h howner hcount]
  refine ⟨by simp, by simp, ?_, rfl⟩
  simp [howner]

theorem reuse_push_protocol_witness :
    ∃ st : MState,
      st.active ≤ MAX_GLOBAL_ACTIVE_SPANS ∧ (st.spans 65536).in_reuse = false ∧
      (st.spans 65536).owner = SPAN_OWNER_ORPHAN ∧
      st.reuse_counts 0 0 < REUSE_CACHE_LIMIT ∧
      (reuse_push st 0 0 65536).reuse_heads 0 0 = [65536] ∧
      ((reuse_push st 0 0 65536).spans 65536).in_reuse = true := by
  refine ⟨⟨fun _ => {}, fun _ _ => [], fun _ _ => 0, fun _ _ => [], 0⟩,
    by norm_num [MAX_GLOBAL_ACTIVE_SPANS], rfl, rfl,
    by norm_num [REUSE_CACHE_LIMIT], ?_, ?_⟩
  · have h := (reuse_push_protocol
      ⟨fun _ => {}, fun _ _ => [], fun _ _ => 0, fun _ _ => [], 0⟩ 0 0 65536).2.2.2.1
      (by norm_num [MAX_GLOBAL_ACTIVE_SPANS]) rfl rfl (by norm_num [REUSE_CACHE_LIMIT])
    simpa using h.1
  · have h := (reuse_push_protocol
      ⟨fun _ => {}, fun _ _ => [], fun _ _ => 0, fun _ _ => [], 0⟩ 0 0 65536).2.2.2.1
      (by norm_num [MAX_GLOBAL_ACTIVE_SPANS]) rfl rfl (by norm_num [REUSE_CACHE_LIMIT])
    exact h.2.1


/-! ### `free_small` in the orphan remote-free case -/

theorem upd1_upd1 {α : Type} (f : Nat → α) (i : Nat) (a b : α) :
    upd1 (upd1 f i a) i b = upd1 f i b := by
  funext x
  by_cases h : x = i <;> simp [upd1, h]

/-- `free_small` on an orphan span holding its last outstanding block, when
the reuse-cache cell is below the count cap: the span ends on the reuse
stack. -/
theorem free_small_orphan_low {st : MState} {tid cpu ptr span : Nat}
    (howner : (st.spans span).owner = SPAN_OWNER_ORPHAN)
    (htid : tid ≠ SPAN_OWNER_ORPHAN)
    (hused : (st.spans span).used = 1)
    (hreuse : (st.spans span).in_reuse = false)
    (hcls : (st.spans span).cls < CLASSES_COUNT)
    (hcount : st.reuse_counts (cpu % SHARD_COUNT) (st.spans span).cls <
      REUSE_CACHE_LIMIT) :
    free_small st tid cpu ptr span =
      { st with
          spans := upd1 st.spans span
            { st.spans span with
                remote_free := ptr :: (st.spans span).remote_free,
                used := 0, in_reuse := true },
          reuse_heads := upd2 st.reuse_heads (cpu % SHARD_COUNT) (st.spans span).cls
            (span :: st.reuse_heads (cpu % SHARD_COUNT) (st.spans span).cls),
          reuse_counts := upd2 st.reuse_counts (cpu % SHARD_COUNT) (st.spans span).cls
            (st.reuse_counts (cpu % SHARD_COUNT) (st.spans span).cls + 1) } := by
  have howner' : ¬((st.spans span).owner = tid) := by
    rw [howner]; exact fun hc => htid hc.symm
  simp only [free_small, setSpan_spans_same]
  rw [if_neg howner', if_pos howner, if_pos hcls]
  by_cases hact : st.active > MAX_GLOBAL_ACTIVE_SPANS
  · -- active counter above the cap: the remote-path reuse_push drops the
    -- span, and the `prev == 1` branch pushes it instead.
    rw [reuse_push_of_active_gt _ _ _ (by simpa using hact)]
    simp only [setSpan_spans_same, MState.setSpan, upd1_upd1, upd1_same,
      hused, howner, hreuse, if_true, Bool.false_eq_true, if_false, ne_eq,
      eq_self_iff_true, not_true, not_false_eq_true]
    simp only [reuse_cache_push, mod_shard_idem]
    rw [if_neg (by omega)]
  · -- active counter within the cap: the remote-path reuse_push succeeds and
    -- the `prev == 1` branch sees `in_reuse` already set.
    rw [reuse_push_of_success _ _ _ (by simpa using hact)
      (by simpa using hreuse) (by simpa using howner) (by simpa using hcount)]
    simp only [setSpan_spans_same, MState.setSpan, upd1_upd1, upd1_same,
      hused, howner, if_true, eq_self_iff_true]

/-- `free_small` on an orphan span holding its last outstanding block, when
the reuse-cache cell is at the count cap: both reuse pushes are rejected and
the span is pushed to the global cache, with `remote_free` still holding the
just-freed block. -/
theorem free_small_orphan_high {st : MState} {tid cpu ptr span : Nat}
    (howner : (st.spans span).owner = SPAN_OWNER_ORPHAN)
    (htid : tid ≠ SPAN_OWNER_ORPHAN)
    (hused : (st.spans span).used = 1)
    (hreuse : (st.spans span).in_reuse = false)
    (hcls : (st.spans span).cls < CLASSES_COUNT)
    (hcount : REUSE_CACHE_LIMIT ≤
      st.reuse_counts (cpu % SHARD_COUNT) (st.spans span).cls) :
    free_small st tid cpu ptr span =
      { st with
          spans := upd1 st.spans span
            { st.spans span with
                remote_free := ptr :: (st.spans span).remote_free,
                used := 0, in_reuse := true },
          global_heads := upd2 st.global_heads (cpu % SHARD_COUNT) (st.spans span).cls
            (span :: st.global_heads (cpu % SHARD_COUNT) (st.spans span).cls) } := by
  have howner' : ¬((st.spans span).owner = tid) := by
    rw [howner]; exact fun hc => htid hc.symm
  simp only [free_small, setSpan_spans_same]
  rw [if_neg howner', if_pos howner, if_pos hcls]
  by_cases hact : st.active > MAX_GLOBAL_ACTIVE_SPANS
  · rw [reuse_push_of_active_gt _ _ _ (by simpa using hact)]
    simp only [setSpan_spans_same, MState.setSpan, upd1_upd1, upd1_same,
      hused, howner, hreuse, if_true, Bool.false_eq_true, if_false, ne_eq,
      eq_self_iff_true, not_true, not_false_eq_true]
    simp only [reuse_cache_push, mod_shard_idem]
    rw [if_pos (by omega)]
    simp only [global_push, global_cache_push, mod_shard_idem, upd1_upd1]
  · rw [reuse_push_of_cap_reject _ _ _ (by simpa using hact)
      (by simp [hreuse]) (by simp [howner])
      (by simp only [setSpan_reuse_counts]; omega)]
    simp only [setSpan_spans_same, MState.setSpan, upd1_upd1, upd1_same,
      hused, howner, hreuse, if_true, Bool.false_eq_true, if_false, ne_eq,
      eq_self_iff_true, not_true, not_false_eq_true]
    simp only [reuse_cache_push, mod_shard_idem]
    rw [if_pos (by omega)]
    simp only [global_push, global_cache_push, mod_shard_idem, upd1_upd1]


/-! ## Claim C2 -/

/-- C2 (amended): in the small-free reclamation branch (`used.fetch_sub`
returned 1, the owner reloads as orphan, the `in_reuse` false→true swap is
won and the owner re-check still sees orphan), the span is pushed to the
reuse cache through the raw stack push `ReuseCache::push`, which still
enforces the `REUSE_CACHE_LIMIT` count cap — what the branch bypasses is
`reuse_push`'s `MAX_GLOBAL_ACTIVE_SPANS` gate and its own `in_reuse`/owner
re-checks — and, when that push is rejected by the cap, the span is pushed
to the global cache. -/
theorem free_small_reclaim_push (st : MState) (tid cpu ptr span : Nat)
    (howner : (st.spans span).owner = SPAN_OWNER_ORPHAN)
    (htid : tid ≠ SPAN_OWNER_ORPHAN)
    (hused : (st.spans span).used = 1)
    (hreuse : (st.spans span).in_reuse = false)
    (hcls : (st.spans span).cls < CLASSES_COUNT) :
    (st.reuse_counts (cpu % SHARD_COUNT) (st.spans span).cls < REUSE_CACHE_LIMIT →
      (free_small st tid cpu ptr span).reuse_heads (cpu % SHARD_COUNT)
          (st.spans span).cls =
        span :: st.reuse_heads (cpu % SHARD_COUNT) (st.spans span).cls ∧
      (free_small st tid cpu ptr span).global_heads = st.global_heads) ∧
    (REUSE_CACHE_LIMIT ≤ st.reuse_counts (cpu % SHARD_COUNT) (st.spans span).cls →
      (free_small st tid cpu ptr span).global_heads (cpu % SHARD_COUNT)
          (st.spans span).cls =
        span :: st.global_heads (cpu % SHARD_COUNT) (st.spans span).cls ∧
      (free_small st tid cpu ptr span).reuse_heads = st.reuse_heads) := by
  constructor
  · intro hcount
    rw [free_small_orphan_low howner htid hused hreuse hcls hcount]
    exact ⟨upd2_same _ _ _ _, rfl⟩
  · intro hcount
    rw [free_small_orphan_high howner htid hused hreuse hcls hcount]
    exact ⟨upd2_same _ _ _ _, rfl⟩

/-- A span at address 65536 of class 0 holding its last block, orphaned,
with the reuse-cache cell for (shard 0, class 0) at the count cap. -/
def c2_state : MState :=
  { spans := upd1 (fun _ => {}) 65536
      { used := 1, owner := SPAN_OWNER_ORPHAN, in_reuse := false, cls := 0,
        kind := RSpanKind.Small },
    reuse_heads := fun _ _ => [],
    reuse_counts := fun _ _ => REUSE_CACHE_LIMIT,
    global_heads := fun _ _ => [],
    active := 0 }

/-- Counterexample to C2 as stated: with every condition of the reclamation
branch satisfied but the reuse-cache count at `REUSE_CACHE_LIMIT`, the span
is NOT placed on the reuse stack (the cap is enforced, not bypassed); it
goes to the global cache instead. -/
theorem free_small_reclaim_push_cap_not_bypassed :
    (c2_state.spans 65536).used = 1 ∧
    (c2_state.spans 65536).owner = SPAN_OWNER_ORPHAN ∧
    (c2_state.spans 65536).in_reuse = false ∧
    c2_state.reuse_counts 0 0 = REUSE_CACHE_LIMIT ∧
    (free_small c2_state 1 0 65664 65536).reuse_heads 0 0 = [] ∧
    (free_small c2_state 1 0 65664 65536).global_heads 0 0 = [65536] := by
  refine ⟨rfl, rfl, rfl, rfl, ?_, ?_⟩ <;> decide

/-- Same span but with an empty reuse-cache cell. -/
def c2_low_state : MState :=
  { spans := upd1 (fun _ => {}) 65536
      { used := 1, owner := SPAN_OWNER_ORPHAN, in_reuse := false, cls := 0,
        kind := RSpanKind.Small },
    reuse_heads := fun _ _ => [],
    reuse_counts := fun _ _ => 0,
    global_heads := fun _ _ => [],
    active := 0 }

theorem free_small_reclaim_push_witness :
    (free_small c2_low_state 1 0 65664 65536).reuse_heads 0 0 = [65536] ∧
    (free_small c2_state 1 0 65664 65536).global_heads 0 0 = [65536] := by
  constructor
  · have h := (free_small_reclaim_push c2_low_state 1 0 65664 65536
      rfl (by decide) rfl rfl (by decide)).1 (by decide)
    have h1 := h.1
    simpa using h1
  · have h := (free_small_reclaim_push c2_state 1 0 65664 65536
      rfl (by decide) rfl rfl (by decide)).2 (by decide)
    have h1 := h.1
    simpa using h1

/-! ## Claim C3 -/

/-- C3 (amended): at the three sites that link a span into the global span
cache — `Arena::retire_small_span`, the `free_small` reclamation fallback,
and the thread-heap destructor flush — the span has `used == 0` at the
moment of the push in the retire and fallback cases, and `remote_free` is
null at the retire and destructor sites (the destructor clears it
explicitly); the `free_small` fallback, however, pushes the span with
`remote_free` still holding the just-freed block. -/
theorem global_cache_push_sites :
    (∀ (st : MState) (cache : List Nat) (cpu span : Nat),
      (st.spans span).used = 0 →
      (st.active > MAX_GLOBAL_ACTIVE_SPANS ∨ THREAD_LOCAL_CACHE_SIZE ≤ cache.length) →
      (retire_small_span st cache cpu span).1.global_heads (cpu % SHARD_COUNT)
          (st.spans span).cls =
        span :: st.global_heads (cpu % SHARD_COUNT) (st.spans span).cls ∧
      ((retire_small_span st cache cpu span).1.spans span).used = 0 ∧
      ((retire_small_span st cache cpu span).1.spans span).remote_free = []) ∧
    (∀ (st : MState) (cpu cls span : Nat),
      (drop_flush_span st cpu cls span).global_heads (cpu % SHARD_COUNT) cls =
        span :: st.global_heads (cpu % SHARD_COUNT) cls ∧
      ((drop_flush_span st cpu cls span).spans span).remote_free = [] ∧
      ((drop_flush_span st cpu cls span).spans span).owner = SPAN_OWNER_ORPHAN ∧
      ((drop_flush_span st cpu cls span).spans span).in_reuse = false ∧
      ((drop_flush_span st cpu cls span).spans span).used = (st.spans span).used) ∧
    (∀ (st : MState) (tid cpu ptr span : Nat),
      (st.spans span).owner = SPAN_OWNER_ORPHAN → tid ≠ SPAN_OWNER_ORPHAN →
      (st.spans span).used = 1 → (st.spans span).in_reuse = false →
      (st.spans span).cls < CLASSES_COUNT →
      REUSE_CACHE_LIMIT ≤ st.reuse_counts (cpu % SHARD_COUNT) (st.spans span).cls →
      (free_small st tid cpu ptr span).global_heads (cpu % SHARD_COUNT)
          (st.spans span).cls =
        span :: st.global_heads (cpu % SHARD_COUNT) (st.spans span).cls ∧
      ((free_small st tid cpu ptr span).spans span).used = 0 ∧
      ((free_small st tid cpu ptr span).spans span).remote_free =
        ptr :: (st.spans span).remote_free) := by
  refine ⟨?_, ?_, ?_⟩
  · intro st cache cpu span hused hfull
    simp only [retire_small_span, setSpan_spans_same, MState.setSpan,
      upd1_upd1, upd1_same]
    by_cases hlist : (match (st.spans span).hot_block with
        | some h => h :: (st.spans span).local_free
        | none => (st.spans span).local_free) ≠ []
    · rw [if_pos hlist]
      simp only [upd1_same, upd1_upd1, hused, eq_self_iff_true, if_true]
      rcases hfull with hact | hlen
      · rw [if_neg (by omega)]
        simp [global_push, global_cache_push, mod_shard_idem, upd2_same,
          upd1_same]
      · by_cases hact2 : st.active ≤ MAX_GLOBAL_ACTIVE_SPANS
        · rw [if_pos hact2, cache_push_list, if_neg (by omega)]
          simp [global_push, global_cache_push, mod_shard_idem, upd2_same,
            upd1_same]
        · rw [if_neg hact2]
          simp [global_push, global_cache_push, mod_shard_idem, upd2_same,
            upd1_same]
    · rw [if_neg hlist]
      simp only [upd1_same, upd1_upd1, hused, eq_self_iff_true, if_true]
      rcases hfull with hact | hlen
      · rw [if_neg (by omega)]
        simp [global_push, global_cache_push, mod_shard_idem, upd2_same,
          upd1_same]
      · by_cases hact2 : st.active ≤ MAX_GLOBAL_ACTIVE_SPANS
        · rw [if_pos hact2, cache_push_list, if_neg (by omega)]
          simp [global_push, global_cache_push, mod_shard_idem, upd2_same,
            upd1_same]
        · rw [if_neg hact2]
          simp [global_push, global_cache_push, mod_shard_idem, upd2_same,
            upd1_same]
  · intro st cpu cls span
    simp only [drop_flush_span, global_push, global_cache_push,
      setSpan_spans_same, setSpan_global_heads, mod_shard_idem, upd2_same,
      upd1_same, MState.setSpan]
    exact ⟨trivial, trivial, trivial, trivial, trivial⟩
  · intro st tid cpu ptr span howner htid hused hreuse hcls hcount
    rw [free_small_orphan_high howner htid hused hreuse hcls hcount]
    refine ⟨upd2_same _ _ _ _, ?_, ?_⟩ <;> simp [upd1_same]


/-- A span at address 131072 of class 0 holding its last outstanding block,
orphaned, with the reuse-cache cell at the count cap and an empty global
cache. -/
def c3_state : MState :=
  { spans := upd1 (fun _ => {}) 131072
      { used := 1, owner := SPAN_OWNER_ORPHAN, in_reuse := false, cls := 0,
        kind := RSpanKind.Small },
    reuse_heads := fun _ _ => [],
    reuse_counts := fun _ _ => REUSE_CACHE_LIMIT,
    global_heads := fun _ _ => [],
    active := 0 }

/-- Counterexample to C3 as stated: the `free_small` reclamation fallback
links a span into the global cache whose `remote_free` still holds the
just-freed block — the global cache then contains a span with
`remote_free ≠ null`. -/
theorem global_cache_span_with_remote_free :
    (free_small c3_state 1 0 131200 131072).global_heads 0 0 = [131072] ∧
    ((free_small c3_state 1 0 131200 131072).spans 131072).remote_free = [131200] ∧
    ((free_small c3_state 1 0 131200 131072).spans 131072).used = 0 := by
  refine ⟨?_, ?_, ?_⟩ <;> decide

/-- A retire scenario: span 65536 with `used = 0` and a full thread cache,
so the retire path falls through to the global cache. -/
def c3_retire_state : MState :=
  { spans := upd1 (fun _ => {}) 65536
      { used := 0, owner := 7, in_reuse := false, cls := 0,
        kind := RSpanKind.Small },
    reuse_heads := fun _ _ => [],
    reuse_counts := fun _ _ => 0,
    global_heads := fun _ _ => [],
    active := 0 }

theorem global_cache_push_sites_witness :
    (retire_small_span c3_retire_state [0, 0] 0 65536).1.global_heads 0 0 =
      [65536] ∧
    ((retire_small_span c3_retire_state [0, 0] 0 65536).1.spans 65536).used = 0 ∧
    ((retire_small_span c3_retire_state [0, 0] 0 65536).1.spans
      65536).remote_free = [] := by
  have h := global_cache_push_sites.1 c3_retire_state [0, 0] 0 65536 rfl
    (Or.inr (by decide))
  refine ⟨?_, h.2.1, h.2.2⟩
  have h1 := h.1
  simpa [c3_retire_state, upd1] using h1

/-! ## Buddy allocator model (`src/lib.rs` lines 290-492)

The per-order spinlocks guard short critical sections; sequentially each
`lock`/`unlock` pair brackets one list operation, so the model applies the
list operations directly.  The intrusive `cache_next` links become the
lists themselves; each order also carries the `FreeList::count` field. -/

structure BuddyState where
  orders : Nat → List Nat
  counts : Nat → Nat

/-- `Buddy::init` (lines 369-380): the whole arena as one max-order entry. -/
def buddy_init : BuddyState :=
  { orders := upd1 (fun _ => []) BUDDY_MAX_ORDER [0],
    counts := upd1 (fun _ => 0) BUDDY_MAX_ORDER 1 }

/-- `Buddy::push_locked` (lines 383-390). -/
def buddy_push (bd : BuddyState) (idx order : Nat) : BuddyState :=
  { orders := upd1 bd.orders order (idx :: bd.orders order),
    counts := upd1 bd.counts order (bd.counts order + 1) }

/-- `Buddy::pop_locked` (lines 392-404). -/
def buddy_pop (bd : BuddyState) (order : Nat) : Option (Nat × BuddyState) :=
  match bd.orders order with
  | [] => none
  | idx :: rest =>
      some (idx, { orders := upd1 bd.orders order rest,
                   counts := upd1 bd.counts order (bd.counts order - 1) })

/-- The list walk of `Buddy::try_remove_buddy` (lines 409-432): remove the
first occurrence of `b`, or fail. -/
def remove_first : List Nat → Nat → Option (List Nat)
  | [], _ => none
  | h :: t, b => if h = b then some t else (remove_first t b).map (h :: ·)

/-- `Buddy::try_remove_buddy` as a state update. -/
def buddy_try_remove (bd : BuddyState) (buddy_idx order : Nat) :
    Bool × BuddyState :=
  match remove_first (bd.orders order) buddy_idx with
  | some l => (true, { orders := upd1 bd.orders order l,
                       counts := upd1 bd.counts order (bd.counts order - 1) })
  | none => (false, bd)

/-- The upward scan of `Buddy::alloc` (lines 445-460), fuelled by the number
of orders left to visit. -/
def buddy_alloc_scan : Nat → BuddyState → Nat → Option (Nat × Nat × BuddyState)
  | 0, _, _ => none
  | fuel + 1, bd, o =>
    if o > BUDDY_MAX_ORDER then none
    else
      match buddy_pop bd o with
      | some (idx, bd2) => some (o, idx, bd2)
      | none => buddy_alloc_scan fuel bd (o + 1)

/-- The descending split loop of `Buddy::alloc` (lines 451-456): pushes the
buddy halves at orders `order + n - 1, ..., order`. -/
def buddy_split_push : Nat → BuddyState → Nat → Nat → BuddyState
  | 0, bd, _, _ => bd
  | n + 1, bd, idx, order =>
      buddy_split_push n (buddy_push bd (idx + (1 <<< (order + n))) (order + n))
        idx order

/-- `Buddy::alloc` (lines 435-463); also threads the 64-bit global
active-span counter (`fetch_add(1 << order)`). -/
def buddy_alloc (bd : BuddyState) (active order : Nat) :
    Option (Nat × BuddyState × Nat) :=
  match buddy_pop bd order with
  | some (idx, bd2) => some (idx, bd2, (active + (1 <<< order)) % 2 ^ 64)
  | none =>
    match buddy_alloc_scan (BUDDY_MAX_ORDER + 1) bd (order + 1) with
    | some (o, idx, bd2) =>
        some (idx, buddy_split_push (o - order) bd2 idx order,
          (active + (1 <<< order)) % 2 ^ 64)
    | none => none

/-- The coalescing loop of `Buddy::free` (lines 470-486).  The loop body
runs at most `BUDDY_MAX_ORDER - order` times, so `BUDDY_MAX_ORDER` fuel
makes the fuelled version exact. -/
def buddy_free_loop : Nat → BuddyState → Nat → Nat → BuddyState × Nat × Nat
  | 0, bd, idx, order => (bd, idx, order)
  | fuel + 1, bd, idx, order =>
    if order < BUDDY_MAX_ORDER then
      let buddy_idx := idx ^^^ (1 <<< order)
      if buddy_idx ≥ SPANS_PER_ARENA then (bd, idx, order)
      else
        match buddy_try_remove bd buddy_idx order with
        | (true, bd2) => buddy_free_loop fuel bd2 (min idx buddy_idx) (order + 1)
        | (false, _) => (bd, idx, order)
    else (bd, idx, order)

/-- `Buddy::free` (lines 466-491): decrement the global active counter by
`1 << order` (64-bit wrapping `fetch_sub`), coalesce upward, then push at
the final order. -/
def buddy_free (bd : BuddyState) (active idx order : Nat) : BuddyState × Nat :=
  let active2 := (active + (2 ^ 64 - (1 <<< order) % 2 ^ 64)) % 2 ^ 64
  let res := buddy_free_loop BUDDY_MAX_ORDER bd idx order
  (buddy_push res.1 res.2.1 res.2.2, active2)

/-- Scenario S2: in a fresh arena, allocate four order-0 spans and free the
four in reverse order of index.  Returns the allocated indices, the final
buddy state and the final active counter. -/
def s2_run : Option (List Nat × BuddyState × Nat) :=
  match buddy_alloc buddy_init 0 0 with
  | none => none
  | some (i1, b1, a1) =>
    match buddy_alloc b1 a1 0 with
    | none => none
    | some (i2, b2, a2) =>
      match buddy_alloc b2 a2 0 with
      | none => none
      | some (i3, b3, a3) =>
        match buddy_alloc b3 a3 0 with
        | none => none
        | some (i4, b4, a4) =>
          let r5 := buddy_free b4 a4 i4 0
          let r6 := buddy_free r5.1 r5.2 i3 0
          let r7 := buddy_free r6.1 r6.2 i2 0
          let r8 := buddy_free r7.1 r7.2 i1 0
          some ([i1, i2, i3, i4], r8.1, r8.2)


/-! ## Claim C5 -/

/-- Counterexample to C5's scenario claim: in a genuinely fresh arena the
four frees coalesce past order 2 into the split remnants, so after the last
free the buddy has NO entry at order 2 — the single free entry sits at
order `BUDDY_MAX_ORDER` (the whole arena). -/
theorem s2_entry_not_at_order_2 :
    (s2_run.map (fun r => (r.1, r.2.1.orders 2, r.2.1.orders BUDDY_MAX_ORDER))) =
      some ([0, 1, 2, 3], [], [0]) := by decide

/-- C5 (amended): `Buddy::free` decrements the global active counter by
`1 << order`, computes the buddy index as `idx XOR (1 << order)`, scans that
order's free list for the buddy; if found it removes it and continues at
`order + 1` with the lower of the two indices, otherwise it pushes at the
current order and stops.  In a fresh arena, after allocating four order-0
spans at consecutive indices 0..3 and freeing all four in reverse order of
index, the coalescing cascades into the split remnants: the buddy ends with
a single free entry at order `BUDDY_MAX_ORDER = 14` (covering the whole
arena, hence the four spans) and every other order empty — not a single
order-2 entry. -/
theorem buddy_free_spec :
    (∀ (bd : BuddyState) (active idx order : Nat),
      1 <<< order ≤ active → active < 2 ^ 64 →
      (buddy_free bd active idx order).2 = active - (1 <<< order)) ∧
    (∀ (bd : BuddyState) (active idx order : Nat),
      order < BUDDY_MAX_ORDER →
      remove_first (bd.orders order) (idx ^^^ (1 <<< order)) = none →
      (buddy_free bd active idx order).1.orders order = idx :: bd.orders order) ∧
    (∀ (fuel : Nat) (bd : BuddyState) (idx order : Nat) (l : List Nat),
      order < BUDDY_MAX_ORDER → idx ^^^ (1 <<< order) < SPANS_PER_ARENA →
      remove_first (bd.orders order) (idx ^^^ (1 <<< order)) = some l →
      buddy_free_loop (fuel + 1) bd idx order =
        buddy_free_loop fuel
          { orders := upd1 bd.orders order l,
            counts := upd1 bd.counts order (bd.counts order - 1) }
          (min idx (idx ^^^ (1 <<< order))) (order + 1)) ∧
    ((s2_run.map (fun r => r.1)) = some [0, 1, 2, 3] ∧
      (s2_run.map (fun r => (r.2.1.orders BUDDY_MAX_ORDER, r.2.2))) =
        some ([0], 0) ∧
      ∀ k, k < BUDDY_MAX_ORDER → (s2_run.map (fun r => r.2.1.orders k)) = some []) := by
  refine ⟨?_, ?_, ?_, by decide, by decide, by decide⟩
  · intro bd active idx order h1 h2
    simp only [buddy_free]
    generalize hs : 1 <<< order = s at h1 ⊢
    omega
  · intro bd active idx order hord hrem
    have hexit : ∀ fuel, buddy_free_loop (fuel + 1) bd idx order = (bd, idx, order) := by
      intro fuel
      simp only [buddy_free_loop]
      rw [if_pos hord]
      by_cases hb : idx ^^^ (1 <<< order) ≥ SPANS_PER_ARENA
      · rw [if_pos hb]
      · rw [if_neg hb]
        simp only [buddy_try_remove, hrem]
    simp only [buddy_free]
    rw [show (BUDDY_MAX_ORDER : Nat) = 13 + 1 from rfl, hexit 13]
    simp [buddy_push, upd1_same]
  · intro fuel bd idx order l hord hb hrem
    simp only [buddy_free_loop]
    rw [if_pos hord, if_neg (by omega)]
    simp only [buddy_try_remove, hrem]

theorem buddy_free_spec_witness :
    (buddy_free buddy_init 1 0 0).2 = 0 ∧
    (buddy_free buddy_init 16384 5 0).1.orders 0 = [5] := by
  constructor
  · have h := buddy_free_spec.1 buddy_init 1 0 0 (by decide) (by decide)
    simpa using h
  · have h := buddy_free_spec.2.1 buddy_init 16384 5 0 (by decide) (by decide)
    simpa using h


/-! ## Small-span initialization and allocation (claims C6) -/

/-- `init_span` (`src/lib.rs` lines 962-982): rewrites every header field
except `used` (in-flight frees may still be pending).  `base` is the span's
base address. -/
def init_span (base cls tid : Nat) (s : SpanState) : SpanState :=
  let block_size := class_to_size cls
  let capacity := (SPAN_SIZE - SPAN_HEADER_SIZE) / block_size
  { s with
      bump := base + SPAN_HEADER_SIZE,
      bump_end := base + SPAN_HEADER_SIZE + capacity * block_size,
      hot_block := none,
      local_free := [],
      remote_free := [],
      owner := tid,
      in_reuse := false,
      block_size := block_size,
      cls := cls,
      kind := RSpanKind.Small,
      order := 0,
      magic := SPAN_MAGIC }

/-- One round of the `alloc_small` block-taking loop on the active span
(`src/lib.rs` lines 1011-1065): hot block, then local free list, then one
remote-free drain (after which the loop pops the drained head), then bump;
`none` means the span is exhausted and the caller retires it. -/
def span_alloc (s : SpanState) : Option (Nat × SpanState) :=
  match s.hot_block with
  | some hot => some (hot, { s with hot_block := none, used := s.used + 1 })
  | none =>
    match s.local_free with
    | b :: rest => some (b, { s with local_free := rest, used := s.used + 1 })
    | [] =>
      match s.remote_free with
      | r :: rest =>
          some (r,
            { s with local_free := rest, remote_free := [], used := s.used + 1 })
      | [] =>
          if s.bump + s.block_size ≤ s.bump_end then
            some (s.bump,
              { s with bump := s.bump + s.block_size, used := s.used + 1 })
          else none

/-- The containing span of a pointer: the low 16 bits masked off
(`ptr & SPAN_ALIGN_MASK`, `src/lib.rs` line 674), for 64-bit pointers equal
to rounding down to a multiple of `SPAN_SIZE`. -/
def ptr_to_span (p : Nat) : Nat := p - p % SPAN_SIZE

/-- A valid block address of a small span at base `B` with block size `bs`:
inside the block region (which starts at offset `SPAN_HEADER_SIZE`), on the
block grid, and ending within the span. -/
def valid_block (B bs p : Nat) : Prop :=
  B + SPAN_HEADER_SIZE ≤ p ∧ p + bs ≤ B + SPAN_SIZE ∧
  (p - (B + SPAN_HEADER_SIZE)) % bs = 0

instance (B bs p : Nat) : Decidable (valid_block B bs p) := by
  unfold valid_block
  infer_instance

/-- Well-formedness of a small span at base `B`: the bump window sits on the
block grid inside the block region and every queued free block is a valid
block address. -/
def WF (B : Nat) (s : SpanState) : Prop :=
  B % SPAN_SIZE = 0 ∧
  s.kind = RSpanKind.Small ∧
  s.cls < CLASSES_COUNT ∧
  s.block_size = class_to_size s.cls ∧
  s.bump_end = B + SPAN_HEADER_SIZE +
    ((SPAN_SIZE - SPAN_HEADER_SIZE) / s.block_size) * s.block_size ∧
  B + SPAN_HEADER_SIZE ≤ s.bump ∧ s.bump ≤ s.bump_end ∧
  (s.bump - (B + SPAN_HEADER_SIZE)) % s.block_size = 0 ∧
  (∀ p ∈ s.hot_block.toList, valid_block B s.block_size p) ∧
  (∀ p ∈ s.local_free, valid_block B s.block_size p) ∧
  (∀ p ∈ s.remote_free, valid_block B s.block_size p)

instance (B : Nat) (s : SpanState) : Decidable (WF B s) := by
  unfold WF
  infer_instance

/-- Every size class has a block size that is a positive multiple of 16. -/
theorem class_to_size_facts :
    ∀ c, c < CLASSES_COUNT → 16 ≤ class_to_size c ∧ class_to_size c % 16 = 0 := by
  decide

/-- `init_span` establishes well-formedness for any span-aligned base and
valid class. -/
theorem init_span_wf (base cls tid : Nat) (s : SpanState)
    (hbase : base % SPAN_SIZE = 0) (hcls : cls < CLASSES_COUNT) :
    WF base (init_span base cls tid s) := by
  obtain ⟨h16, hmod⟩ := class_to_size_facts cls hcls
  refine ⟨hbase, rfl, hcls, rfl, rfl, le_refl _, ?_, ?_, ?_, ?_, ?_⟩
  · exact Nat.le_add_right _ _
  · simp [init_span]
  · simp [init_span]
  · simp [init_span]
  · simp [init_span]

theorem valid_block_props {B bs p : Nat} (hB : B % SPAN_SIZE = 0)
    (hbs16 : 16 ≤ bs) (hbsmod : bs % 16 = 0) (hv : valid_block B bs p) :
    ptr_to_span p = B ∧ B + SPAN_HEADER_SIZE ≤ p ∧ p % 16 = 0 ∧
    p + bs ≤ B + SPAN_SIZE := by
  obtain ⟨h1, h2, h3⟩ := hv
  have hspan : SPAN_SIZE = 65536 := by decide
  have hhdr : SPAN_HEADER_SIZE = 128 := by decide
  rw [hspan] at hB h2
  rw [hhdr] at h1 h3
  obtain ⟨q, hq⟩ := Nat.dvd_of_mod_eq_zero hB
  obtain ⟨m, hm⟩ := Nat.dvd_of_mod_eq_zero hbsmod
  obtain ⟨k, hk⟩ := Nat.dvd_of_mod_eq_zero h3
  have hp : p = B + 128 + bs * k := by omega
  refine ⟨?_, by omega, ?_, by rw [hspan]; omega⟩
  · unfold ptr_to_span
    rw [hspan]
    omega
  · have hp16 : p = 65536 * q + 128 + 16 * (m * k) := by
      rw [hp, hq, hm]; ring
    omega

/-- C6: every pointer returned by a successful small allocation from a
well-formed span lies inside the span's block region: masking the low 16
bits recovers the span base, the span's kind is Small, the offset is at
least `SPAN_HEADER_SIZE = 128`, the pointer is 16-byte aligned, and
`p + block_size` stays within the span's 64 KiB. -/
theorem small_alloc_pointer_in_block_region (B : Nat) (s : SpanState)
    (hwf : WF B s) (p : Nat) (s2 : SpanState)
    (halloc : span_alloc s = some (p, s2)) :
    ptr_to_span p = B ∧ s.kind = RSpanKind.Small ∧
    B + SPAN_HEADER_SIZE ≤ p ∧ p % 16 = 0 ∧
    p + s.block_size ≤ B + SPAN_SIZE := by
  obtain ⟨hB, hkind, hcls, hbs, hbe, hb1, hb2, hbmod, hhot, hlocal, hremote⟩ := hwf
  obtain ⟨h16, hmod⟩ := class_to_size_facts s.cls hcls
  rw [← hbs] at h16 hmod
  have hval : valid_block B s.block_size p := by
    rw [span_alloc] at halloc
    cases hh : s.hot_block with
    | some hot =>
      rw [hh] at halloc
      simp only [Option.some.injEq, Prod.mk.injEq] at halloc
      exact halloc.1 ▸ hhot hot (by simp [hh])
    | none =>
      rw [hh] at halloc
      cases hl : s.local_free with
      | cons b rest =>
        rw [hl] at halloc
        simp only [Option.some.injEq, Prod.mk.injEq] at halloc
        exact halloc.1 ▸ hlocal b (by simp [hl])
      | nil =>
        rw [hl] at halloc
        cases hr : s.remote_free with
        | cons r rest =>
          rw [hr] at halloc
          simp only [Option.some.injEq, Prod.mk.injEq] at halloc
          exact halloc.1 ▸ hremote r (by simp [hr])
        | nil =>
          rw [hr] at halloc
          by_cases hbump : s.bump + s.block_size ≤ s.bump_end
          · rw [if_pos hbump] at halloc
            simp only [Option.some.injEq, Prod.mk.injEq] at halloc
            have hcap : ((SPAN_SIZE - SPAN_HEADER_SIZE) / s.block_size) *
                s.block_size ≤ SPAN_SIZE - SPAN_HEADER_SIZE :=
              Nat.div_mul_le_self _ _
            have hsh : SPAN_HEADER_SIZE ≤ SPAN_SIZE := by decide
            refine halloc.1 ▸ ⟨hb1, by omega, hbmod⟩
          · rw [if_neg hbump] at halloc
            exact absurd halloc (by simp)
  obtain ⟨hm1, hm2, hm3, hm4⟩ := valid_block_props hB h16 hmod hval
  exact ⟨hm1, hkind, hm2, hm3, hm4⟩

theorem small_alloc_pointer_in_block_region_witness :
    ptr_to_span 65664 = 65536 ∧ 65664 % 16 = 0 ∧
    65536 + SPAN_HEADER_SIZE ≤ 65664 := by
  have hwf : WF 65536 (init_span 65536 0 1 {}) :=
    init_span_wf 65536 0 1 {} (by decide) (by decide)
  have h := small_alloc_pointer_in_block_region 65536 (init_span 65536 0 1 {})
    hwf 65664 _ rfl
  exact ⟨h.1, h.2.2.2.1, h.2.2.1⟩


/-! ## Pointer classification on dealloc (claims C8, C10) -/

inductive DeallocAction
  | retNull
  | free (kind : RSpanKind) (span : Nat)
  | ignored
deriving DecidableEq

/-- `Allocator::dealloc` (`src/lib.rs` lines 1259-1285) as a classification
of the pointer: a null pointer returns immediately; a pointer inside the
initialized arena is dispatched on the kind of the span found by masking
off the low 16 bits (`free_small` / `free_large` / `free_huge`); otherwise
the header candidate at `ptr - SPAN_HEADER_SIZE` is freed as huge exactly
when its magic matches `SPAN_MAGIC` and its kind is `Huge`; anything else
is foreign and the source's branch body is empty (no state change, no
error).  `inited` is whether `ARENA.get()` returned the arena, `base` the
arena base, `spanAt` the header fields readable at an address; the
`_layout` parameters mirror the ignored `_layout` argument. -/
def dealloc_classify (inited : Bool) (base : Nat) (spanAt : Nat → SpanState)
    (ptr _layout_size _layout_align : Nat) : DeallocAction :=
  if ptr = 0 then DeallocAction.retNull
  else if inited = true ∧ base ≤ ptr ∧ ptr < base + ARENA_SIZE then
    DeallocAction.free ((spanAt (ptr_to_span ptr)).kind) (ptr_to_span ptr)
  else if (spanAt (ptr - SPAN_HEADER_SIZE)).magic = SPAN_MAGIC ∧
      (spanAt (ptr - SPAN_HEADER_SIZE)).kind = RSpanKind.Huge then
    DeallocAction.free RSpanKind.Huge (ptr - SPAN_HEADER_SIZE)
  else DeallocAction.ignored

/-- C8: pointer classification on dealloc: for every non-null `ptr` inside
the initialized arena, the span is computed by masking and the free is
dispatched on its kind; for every `ptr` outside the arena (or with the
arena uninitialized), the candidate header at `ptr - 128` is freed as huge
iff its magic equals `SPAN_MAGIC` and its kind is `Huge`; any other foreign
pointer is classified as ignored (the source does nothing there). -/
theorem dealloc_pointer_classification (inited : Bool) (base : Nat)
    (spanAt : Nat → SpanState) (ptr lsz lal : Nat) (hptr : ptr ≠ 0) :
    (inited = true → base ≤ ptr → ptr < base + ARENA_SIZE →
      dealloc_classify inited base spanAt ptr lsz lal =
        DeallocAction.free ((spanAt (ptr_to_span ptr)).kind) (ptr_to_span ptr)) ∧
    ((inited = false ∨ ptr < base ∨ base + ARENA_SIZE ≤ ptr) →
      ((spanAt (ptr - SPAN_HEADER_SIZE)).magic = SPAN_MAGIC ∧
          (spanAt (ptr - SPAN_HEADER_SIZE)).kind = RSpanKind.Huge →
        dealloc_classify inited base spanAt ptr lsz lal =
          DeallocAction.free RSpanKind.Huge (ptr - SPAN_HEADER_SIZE)) ∧
      (¬((spanAt (ptr - SPAN_HEADER_SIZE)).magic = SPAN_MAGIC ∧
          (spanAt (ptr - SPAN_HEADER_SIZE)).kind = RSpanKind.Huge) →
        dealloc_classify inited base spanAt ptr lsz lal =
          DeallocAction.ignored)) := by
  constructor
  · intro hin h1 h2
    rw [dealloc_classify, if_neg hptr, if_pos ⟨hin, h1, h2⟩]
  · intro hout
    have hnotin : ¬(inited = true ∧ base ≤ ptr ∧ ptr < base + ARENA_SIZE) := by
      rcases hout with h | h | h
      · simp [h]
      · exact fun hc => by omega
      · exact fun hc => by omega
    constructor
    · intro hmagic
      rw [dealloc_classify, if_neg hptr, if_neg hnotin, if_pos hmagic]
    · intro hmagic
      rw [dealloc_classify, if_neg hptr, if_neg hnotin, if_neg hmagic]

theorem dealloc_pointer_classification_witness :
    dealloc_classify true 0 (fun _ => {}) 16 1 1 =
      DeallocAction.free RSpanKind.Small 0 ∧
    dealloc_classify false 0 (fun _ => {}) 999 1 1 = DeallocAction.ignored := by
  constructor
  · have h := (dealloc_pointer_classification true 0 (fun _ => {}) 16 1 1
      (by norm_num)).1 rfl (by norm_num) (by decide)
    simpa [ptr_to_span] using h
  · have h := ((dealloc_pointer_classification false 0 (fun _ => {}) 999 1 1
      (by norm_num)).2 (Or.inl rfl)).2 (by decide)
    exact h

/-- C10: `Allocator::dealloc` with a null pointer returns immediately, for
every layout and regardless of the arena state or any header contents: the
classification is `retNull` uniformly, so no header is read and no
allocator state is touched. -/
theorem dealloc_null_noop :
    ∀ (inited : Bool) (base : Nat) (spanAt : Nat → SpanState) (lsz lal : Nat),
      dealloc_classify inited base spanAt 0 lsz lal = DeallocAction.retNull := by
  intro inited base spanAt lsz lal
  rw [dealloc_classify, if_pos rfl]

/-! ## Realloc (claim C9) -/

/-- `core::ptr::copy_nonoverlapping(src, dst, count)` on a byte map: the
destination range takes the source range's old bytes. -/
def copy_nonoverlapping (mem : Nat → Nat) (src dst count : Nat) : Nat → Nat :=
  fun a => if dst ≤ a ∧ a < dst + count then mem (src + (a - dst)) else mem a

/-- `Allocator::realloc` (`src/lib.rs` lines 1287-1320).  `mem` is the byte
map, `alloc_result` the outcome of the inner `self.alloc` call for the new
size (`none` = null).  Deallocating the old block recycles it without
touching its bytes, so the byte map is unchanged by the `dealloc` call.
Returns the final byte map and the returned pointer (0 = null). -/
def realloc_model (mem : Nat → Nat) (ptr old_size new_size _align : Nat)
    (alloc_result : Option Nat) : (Nat → Nat) × Nat :=
  if ptr = 0 then
    (mem, match alloc_result with | some q => q | none => 0)
  else if new_size = 0 then (mem, 0)
  else if old_size ≤ CLASSES_MAX_SIZE ∧ new_size ≤ CLASSES_MAX_SIZE ∧
      size_to_class old_size = size_to_class new_size then
    (mem, ptr)
  else
    match alloc_result with
    | none => (mem, 0)
    | some q => (copy_nonoverlapping mem ptr q (min old_size new_size), q)

/-- C9: for every non-null pointer and non-zero new size, if the old and
new sizes are both in the small range and map to the same size class, the
adapter's realloc returns the original pointer with memory untouched;
otherwise, when the inner allocation succeeds at `q`, the call returns `q`
and the first `min(old_size, new_size)` bytes at `q` equal the original
block's bytes. -/
theorem realloc_same_class_or_copies (mem : Nat → Nat)
    (ptr old_size new_size align : Nat) (ar : Option Nat)
    (hptr : ptr ≠ 0) (hnew : new_size ≠ 0) :
    (old_size ≤ CLASSES_MAX_SIZE → new_size ≤ CLASSES_MAX_SIZE →
      size_to_class old_size = size_to_class new_size →
      realloc_model mem ptr old_size new_size align ar = (mem, ptr)) ∧
    (∀ q, ar = some q →
      ¬(old_size ≤ CLASSES_MAX_SIZE ∧ new_size ≤ CLASSES_MAX_SIZE ∧
        size_to_class old_size = size_to_class new_size) →
      (realloc_model mem ptr old_size new_size align ar).2 = q ∧
      ∀ i, i < min old_size new_size →
        (realloc_model mem ptr old_size new_size align ar).1 (q + i) =
          mem (ptr + i)) := by
  constructor
  · intro h1 h2 h3
    rw [realloc_model.eq_def, if_neg hptr, if_neg hnew, if_pos ⟨h1, h2, h3⟩]
  · intro q hq hnotsame
    rw [realloc_model.eq_def, if_neg hptr, if_neg hnew, if_neg hnotsame, hq]
    refine ⟨rfl, ?_⟩
    intro i hi
    show copy_nonoverlapping mem ptr q (min old_size new_size) (q + i) =
      mem (ptr + i)
    rw [copy_nonoverlapping]
    rw [if_pos ⟨Nat.le_add_right _ _, by omega⟩]
    congr 1
    omega

theorem realloc_same_class_or_copies_witness :
    (realloc_model (fun a => a) 1000 40 48 16 none).2 = 1000 ∧
    (realloc_model (fun a => a) 1000 40 200 16 (some 5000)).2 = 5000 ∧
    (realloc_model (fun a => a) 1000 40 200 16 (some 5000)).1 (5000 + 7) = 1007 := by
  refine ⟨?_, ?_, ?_⟩
  · have h := (realloc_same_class_or_copies (fun a => a) 1000 40 48 16 none
      (by norm_num) (by norm_num)).1 (by decide) (by decide) (by decide)
    rw [h]
  · exact ((realloc_same_class_or_copies (fun a => a) 1000 40 200 16 (some 5000)
      (by norm_num) (by norm_num)).2 5000 rfl (by decide)).1
  · have h := ((realloc_same_class_or_copies (fun a => a) 1000 40 200 16
      (some 5000) (by norm_num) (by norm_num)).2 5000 rfl (by decide)).2 7
      (by norm_num)
    simpa using h

end Inictus
